import Mathlib

/-
Verification development for the Devstral Vision Workspace
(src/devstral_workspace.py). The Python class DevstralWorkspace is embedded
shallowly: file-system state, clock readings and process liveness are passed
explicitly; each Lean definition mirrors one Python method (line numbers in
the doc comments refer to src/devstral_workspace.py).
-/

namespace Devstral

/-- A generation record as built by generate_code (lines 309-315).
The Python dict fields are: "timestamp" (datetime.now().isoformat()),
"target_file", "prompt" (custom_prompt or the empty string), "screenshot"
(filename or None), and "generation_id".  The generation_id is the string
"gen_" followed by the decimal rendering of int(time.time() * 1000); since
the prefix is constant and decimal rendering is injective, the record stores
the integer millisecond value, and genIdString below is the rendering. -/
structure GenRecord where
  timestamp : String
  target_file : String
  prompt : String
  screenshot : Option String
  generation_id : Nat
deriving DecidableEq

/-- Rendering of the generation identifier field: the Python f-string
produces "gen_" followed by the decimal milliseconds (line 314). -/
def genIdString (n : Nat) : String := "gen_" ++ toString n

/-- The generation-record constructor of generate_code (lines 309-315):
nowIso is datetime.now().isoformat() and nowMs is int(time.time() * 1000)
at the moment the record is built. -/
def mkGenerationMeta (nowIso : String) (nowMs : Nat) (targetFile customPrompt : String)
    (screenshot : Option String) : GenRecord :=
  { timestamp := nowIso
    target_file := targetFile
    prompt := customPrompt
    screenshot := screenshot
    generation_id := nowMs }

/-- The per-project metadata descriptor stored in meta.json.  JSON keys that
a hand-edited or legacy descriptor may lack ("type", "created",
"last_modified") are Option; dict.get defaults are applied at the use
sites, as in the Python. -/
structure Meta where
  name : String
  type : Option String
  created : Option String
  last_modified : Option String
  generations : List GenRecord
deriving DecidableEq

/-- Python list slicing l[-50:]: the last (at most) 50 elements.
For a list of length L this is drop (L - n) with truncated subtraction,
which is the whole list when L is at most n. -/
def lastSlice (l : List α) (n : Nat) : List α := l.drop (l.length - n)

/-- save_generation_metadata (lines 346-376), minus the file IO: cur is the
parse of the existing meta.json (none when the file does not exist, in which
case lines 358-363 synthesize a default descriptor), now is
datetime.now().isoformat().  Appends the record and keeps only the last 50
generations (line 372). -/
def save_generation_metadata (now : String) (cur : Option Meta) (projName : String)
    (g : GenRecord) : Meta :=
  let meta := match cur with
    | some m => m
    | none =>
      { name := projName
        type := some "Unknown"
        created := some now
        last_modified := none
        generations := [] }
  let meta := { meta with last_modified := some now }
  { meta with generations := lastSlice (meta.generations ++ [g]) 50 }

theorem lastSlice_length_le (l : List α) (n : Nat) : (lastSlice l n).length ≤ n := by
  simp [lastSlice]
  omega

theorem save_generation_metadata_length_le (now : String) (cur : Option Meta)
    (projName : String) (g : GenRecord) :
    (save_generation_metadata now cur projName g).generations.length ≤ 50 := by
  cases cur <;> simp [save_generation_metadata] <;> exact lastSlice_length_le _ _

/-- C1: For every project and every sequence of appended generation records,
the persisted generation history never exceeds 50 records; when a record is
appended to a history that already holds 50, the oldest record is evicted
(FIFO) and the remaining records keep their order with the new record last.
Clause 1: a single append never leaves more than 50 records (whatever the
prior length).  Clause 2: appending to a history of exactly 50 drops the
oldest record and puts the new one last, preserving order.  Clause 3: any
sequence of appends starting from a descriptor within the cap stays within
the cap. -/
theorem generation_history_cap (now projName : String) (m : Meta) (g : GenRecord)
    (cur : Option Meta) (gs : List GenRecord) (m0 : Meta) :
    (save_generation_metadata now cur projName g).generations.length ≤ 50 ∧
    (m.generations.length = 50 →
      (save_generation_metadata now (some m) projName g).generations =
        m.generations.tail ++ [g]) ∧
    (m0.generations.length ≤ 50 →
      (gs.foldl (fun acc r => save_generation_metadata now (some acc) projName r)
        m0).generations.length ≤ 50) := by
  refine ⟨save_generation_metadata_length_le now cur projName g, ?_, ?_⟩
  · intro hlen
    cases hgens : m.generations with
    | nil => rw [hgens] at hlen; simp at hlen
    | cons a l =>
      rw [hgens] at hlen
      simp at hlen
      simp [save_generation_metadata, lastSlice, hgens, hlen]
  · intro h0
    induction gs generalizing m0 with
    | nil => simpa using h0
    | cons r rs ih =>
      simp only [List.foldl_cons]
      exact ih _ (save_generation_metadata_length_le now (some _) projName r)

/-- A concrete descriptor holding exactly 50 generation records, used to
witness the eviction clause of the cap theorem. -/
def demoMeta50 : Meta :=
  { name := "demo", type := some "React", created := some "t0",
    last_modified := some "t0",
    generations := (List.range 50).map
      (fun i => mkGenerationMeta "t" i "index.html" "" none) }

/-- Witness for C1 at a concrete history of exactly 50 records: the append
evicts the oldest and appends the new record last. -/
theorem generation_history_cap_witness :
    demoMeta50.generations.length = 50 ∧
    (save_generation_metadata "t1" (some demoMeta50) "demo"
        (mkGenerationMeta "t1" 99 "index.html" "p" none)).generations =
      demoMeta50.generations.tail ++ [mkGenerationMeta "t1" 99 "index.html" "p" none] := by
  refine ⟨by decide, ?_⟩
  exact (generation_history_cap "t1" "demo" demoMeta50
    (mkGenerationMeta "t1" 99 "index.html" "p" none) none [] demoMeta50).2.1 (by decide)

/-- C9 counterexample: two generation records appended back to back while
int(time.time() * 1000) reads the same millisecond value receive the same
generation identifier, so identifiers are neither unique nor strictly
increasing.  The two records are distinct (different prompts) yet carry
equal generation_id fields, and their rendered id strings coincide. -/
theorem generation_id_collision :
    (save_generation_metadata "t2"
        (some (save_generation_metadata "t1" none "demo"
          (mkGenerationMeta "t1" 1000 "index.html" "a" none)))
        "demo" (mkGenerationMeta "t2" 1000 "index.html" "b" none)).generations =
      [mkGenerationMeta "t1" 1000 "index.html" "a" none,
       mkGenerationMeta "t2" 1000 "index.html" "b" none] ∧
    mkGenerationMeta "t1" 1000 "index.html" "a" none ≠
      mkGenerationMeta "t2" 1000 "index.html" "b" none ∧
    (mkGenerationMeta "t1" 1000 "index.html" "a" none).generation_id =
      (mkGenerationMeta "t2" 1000 "index.html" "b" none).generation_id ∧
    genIdString (mkGenerationMeta "t1" 1000 "index.html" "a" none).generation_id =
      genIdString (mkGenerationMeta "t2" 1000 "index.html" "b" none).generation_id := by
  refine ⟨by decide, by decide, by decide, by decide⟩

/-- C9 (amended): generation identifiers are the millisecond clock reading
at append time; whenever the clock reading strictly increases between two
appends, the later record's identifier is strictly greater than and distinct
from the earlier one's, and the two records sit in append order in the
persisted history. -/
theorem generation_id_monotone (t1 t2 : Nat) (iso1 iso2 tf1 tf2 p1 p2 : String)
    (s1 s2 : Option String) (now1 now2 projName : String) (h : t1 < t2) :
    (save_generation_metadata now2
        (some (save_generation_metadata now1 none projName
          (mkGenerationMeta iso1 t1 tf1 p1 s1)))
        projName (mkGenerationMeta iso2 t2 tf2 p2 s2)).generations =
      [mkGenerationMeta iso1 t1 tf1 p1 s1, mkGenerationMeta iso2 t2 tf2 p2 s2] ∧
    (mkGenerationMeta iso1 t1 tf1 p1 s1).generation_id <
      (mkGenerationMeta iso2 t2 tf2 p2 s2).generation_id ∧
    (mkGenerationMeta iso1 t1 tf1 p1 s1).generation_id ≠
      (mkGenerationMeta iso2 t2 tf2 p2 s2).generation_id := by
  refine ⟨?_, h, Nat.ne_of_lt h⟩
  simp [save_generation_metadata, lastSlice]

/-- Witness for C9's amended theorem at concrete clock readings 1000 < 1001. -/
theorem generation_id_monotone_witness :
    1000 < 1001 ∧
    (save_generation_metadata "n2"
        (some (save_generation_metadata "n1" none "demo"
          (mkGenerationMeta "i1" 1000 "a.html" "p1" none)))
        "demo" (mkGenerationMeta "i2" 1001 "b.html" "p2" none)).generations =
      [mkGenerationMeta "i1" 1000 "a.html" "p1" none,
       mkGenerationMeta "i2" 1001 "b.html" "p2" none] ∧
    (mkGenerationMeta "i1" 1000 "a.html" "p1" none).generation_id <
      (mkGenerationMeta "i2" 1001 "b.html" "p2" none).generation_id := by
  have h := generation_id_monotone 1000 1001 "i1" "i2" "a.html" "b.html" "p1" "p2"
    none none "n1" "n2" "demo" (by decide)
  exact ⟨by decide, h.1, h.2.1⟩

/-- One step of the file-system write activity performed by the metadata
writes: openTrunc p is Python open(p, "w"), which truncates p to empty on
open; writeAll p d appends the serialized JSON d to p's (just truncated)
contents; closeFile closes the handle; renameFile is os.rename /
os.replace, which the source never calls. -/
inductive FsWrite
  | openTrunc (path : String)
  | writeAll (path : String) (data : String)
  | closeFile (path : String)
  | renameFile (src dst : String)
deriving DecidableEq

/-- The file-system trace of every descriptor write in the source: both
save_generation_metadata (lines 374-376) and create_project (lines 143-144)
run: with open(meta_file, "w") as f: json.dump(meta, f, indent=2).
That is a truncating open of the target itself, a write of the serialized
descriptor, and a close; no temporary file and no rename are involved. -/
def writeDescriptorTrace (path content : String) : List FsWrite :=
  [.openTrunc path, .writeAll path content, .closeFile path]

/-- A trace writes the target atomically via a temp file when it renames
some other path onto the target and never opens the target itself in
truncating write mode. -/
def writesViaTempRename (t : List FsWrite) (target : String) : Bool :=
  (t.any fun op => match op with
    | .renameFile _ dst => dst == target
    | _ => false) &&
  !(t.any fun op => match op with
    | .openTrunc p => p == target
    | _ => false)

/-- The content of the target file after the given operations run, starting
from the given initial content; this is what a concurrent reader observes
if it reads at that point of the trace. -/
def contentAfter (target : String) (initial : String) : List FsWrite → String
  | [] => initial
  | op :: rest =>
    contentAfter target
      (match op with
       | .openTrunc p => if p = target then "" else initial
       | .writeAll p d => if p = target then initial ++ d else initial
       | _ => initial) rest

/-- The meta.json path under a project directory (lines 143, 351). -/
def metaJsonPath (projectDir : String) : String := projectDir ++ "/meta.json"

/-- The file-system trace of the persistence step of
save_generation_metadata (lines 374-376): with open(meta_file, "w") as f:
json.dump(meta, f, indent=2) — a truncating in-place open of the
descriptor itself, the write of the serialized JSON, and a close; no
temporary file and no rename are involved. -/
def save_generation_metadata_fsTrace (projectDir newJson : String) : List FsWrite :=
  writeDescriptorTrace (metaJsonPath projectDir) newJson

/-- The file-system trace of the descriptor write inside create_project
(lines 143-144), which runs the same with open(.., "w") / json.dump
statement on the fresh project's meta.json. -/
def create_project_meta_fsTrace (projectDir newJson : String) : List FsWrite :=
  writeDescriptorTrace (metaJsonPath projectDir) newJson

/-- The observable state of a project's meta.json file: absent (no file),
malformed (the file exists but json.load raises, e.g. invalid JSON or an
unreadable file), or valid with the parsed descriptor. -/
inductive MetaContent
  | absent
  | malformed
  | valid (m : Meta)
deriving DecidableEq

/-- The Python exception that escapes an operation in the embedding. -/
inductive PyErr
  | jsonDecodeError
deriving DecidableEq

/-- One row of the listing built by get_workspace_projects (lines 47-67):
name plus the created / last_modified / type fields, with "Unknown"
substituted where they cannot be read. -/
structure ProjectSummary where
  name : String
  created : String
  last_modified : String
  type : String
deriving DecidableEq

/-- The per-directory branch of get_workspace_projects (lines 41-67): a
valid descriptor contributes its fields with dict.get defaults of
"Unknown"; a malformed descriptor is caught by the bare except (lines
53-59) and degrades to "Unknown" placeholders; a directory without
meta.json is a legacy project, also all "Unknown" (lines 60-67). -/
def projectSummaryOf (name : String) (c : MetaContent) : ProjectSummary :=
  match c with
  | .valid m =>
    { name := name
      created := m.created.getD "Unknown"
      last_modified := m.last_modified.getD "Unknown"
      type := m.type.getD "Unknown" }
  | .malformed =>
    { name := name, created := "Unknown", last_modified := "Unknown", type := "Unknown" }
  | .absent =>
    { name := name, created := "Unknown", last_modified := "Unknown", type := "Unknown" }

/-- Lexicographic comparison of strings by character code point, the order
Python's sorted uses for str keys. -/
def charListLe : List Char → List Char → Bool
  | [], _ => true
  | _ :: _, [] => false
  | a :: as, b :: bs =>
    if a.toNat < b.toNat then true
    else if b.toNat < a.toNat then false
    else charListLe as bs

/-- String comparison wrapper for charListLe. -/
def strLe (a b : String) : Bool := charListLe a.data b.data

/-- Stable insertion into a name-sorted listing, modelling
sorted(projects, key name) of line 69. -/
def insertByName (p : ProjectSummary) : List ProjectSummary → List ProjectSummary
  | [] => [p]
  | q :: rest => if strLe q.name p.name then q :: insertByName p rest else p :: q :: rest

/-- Stable sort by name (line 69). -/
def sortByName (l : List ProjectSummary) : List ProjectSummary := l.foldr insertByName []

/-- Python name.startswith of a dot (line 40). -/
def startsWithDot (s : String) : Bool :=
  match s.data with
  | c :: _ => c == '.'
  | [] => false

/-- get_workspace_projects (lines 36-69): the input is the workspace
directory listing, each subdirectory name paired with the state of its
meta.json; dot-directories are skipped (line 40); every other directory
yields a summary row, and the rows are sorted by name.  The function is
total: no descriptor state makes it raise. -/
def get_workspace_projects (items : List (String × MetaContent)) : List ProjectSummary :=
  sortByName ((items.filter (fun it => !startsWithDot it.1)).map
    (fun it => projectSummaryOf it.1 it.2))

/-- get_default_target_file (lines 92-112): hasCurrent is whether
self.current_project is set and c is the state of the current project's
meta.json.  The body opens and json.load-s meta.json with no try/except,
so a malformed descriptor raises json.JSONDecodeError out of the method. -/
def get_default_target_file (hasCurrent : Bool) (c : MetaContent) : Except PyErr String :=
  if !hasCurrent then .ok "src/App.jsx"
  else match c with
  | .absent => .ok "src/App.jsx"
  | .malformed => .error .jsonDecodeError
  | .valid m =>
    .ok (match m.type.getD "React" with
      | "React" => "src/App.jsx"
      | "Vue" => "src/App.vue"
      | "Next.js" => "app/page.tsx"
      | _ => "index.html")

/-- load_project (lines 71-90): name is the selected project, dirFound is
whether workspace/name exists, c is the state of its meta.json.  The
no-selection and not-found branches return an error message normally;
otherwise the project becomes current, load_generation_history runs (it
catches all its exceptions, lines 387-413, so it never raises) and
get_default_target_file computes the default file — when meta.json is
malformed that call raises and the exception propagates out of
load_project, which has no handler.  The ok payload is the status message
and the default target file. -/
def load_project (name : String) (dirFound : Bool) (c : MetaContent) :
    Except PyErr (String × String) :=
  if name = "" then .ok ("no project selected", "src/App.jsx")
  else if !dirFound then .ok ("project not found", "src/App.jsx")
  else (get_default_target_file true c).map (fun df => ("loaded", df))

/-- C3 is violated by the code: for a project whose meta.json is malformed,
the listing succeeds and degrades to "Unknown" placeholder fields, but
loading the project raises json.JSONDecodeError (propagated from
get_default_target_file, which parses the descriptor with no exception
handler), instead of succeeding with placeholders. -/
theorem corrupt_metadata_listing_vs_load :
    get_workspace_projects [("demo", .malformed)] =
      [{ name := "demo", created := "Unknown", last_modified := "Unknown",
         type := "Unknown" }] ∧
    load_project "demo" true .malformed = .error .jsonDecodeError ∧
    get_default_target_file true .malformed = .error .jsonDecodeError := by
  refine ⟨by decide, rfl, rfl⟩

/-- Decidable equality for Except, so that concrete outcomes can be
evaluated by decide. -/
instance [DecidableEq ε] [DecidableEq α] : DecidableEq (Except ε α)
  | .error a, .error b =>
    if h : a = b then .isTrue (by rw [h]) else .isFalse (fun hh => h (by cases hh; rfl))
  | .error _, .ok _ => .isFalse (fun hh => Except.noConfusion hh)
  | .ok _, .error _ => .isFalse (fun hh => Except.noConfusion hh)
  | .ok a, .ok b =>
    if h : a = b then .isTrue (by rw [h]) else .isFalse (fun hh => h (by cases hh; rfl))

/-- The returned status of create_project (lines 114-166).  The
already-exists return (line 123) carries the default target file computed
by get_default_target_file() on the session's current project, because the
source evaluates that call inside the returned tuple. -/
inductive CreateResult
  | invalidName
  | alreadyExists (name defaultFile : String)
  | created (type name defaultFile : String)
deriving DecidableEq

/-- Everything create_project changes, as observed by the caller and the
file system: the returned status — or, when result is an error, the
exception that escaped the method — the session's current-project pointer,
the list of paths created on disk (directories and files, in creation
order), and the descriptor written, if any. -/
structure CreateOutcome where
  result : Except PyErr CreateResult
  current_project : Option String
  writes : List String
  descriptor : Option Meta
deriving DecidableEq

/-- Python str.strip with no arguments: remove leading and trailing
whitespace (line 119). -/
def pyStrip (s : String) : String :=
  String.mk (((s.data.dropWhile Char.isWhitespace).reverse.dropWhile
    Char.isWhitespace).reverse)

/-- Path of a project directory: self.workspace_dir / name with
workspace_dir = Path("workspace") (lines 28, 120).  Note that the name is
joined verbatim: nothing rejects path separators or "..", so a name such
as "../evil" resolves outside the workspace directory. -/
def projectPath (name : String) : String := "workspace/" ++ name

/-- The scaffold file set materialized per project type: the directories
and files written by _create_react_structure (lines 537-631),
_create_vue_structure (lines 633-694), _create_nextjs_structure (lines
696-736) and _create_html_structure (lines 738-782), as paths relative to
the project directory (contents are opaque template blobs). -/
def scaffoldFiles (type : String) : List String :=
  match type with
  | "React" => ["src", "src/components", "public", "package.json", "vite.config.js",
                "index.html", "src/main.jsx", "src/App.jsx", "src/index.css", "src/App.css"]
  | "Vue" => ["src", "src/components", "public", "package.json", "vite.config.js",
              "index.html", "src/main.js", "src/App.vue"]
  | "Next.js" => ["app", "components", "public", "package.json", "next.config.js",
                  "app/layout.js", "app/page.js"]
  | _ => ["css", "js", "images", "index.html", "css/style.css", "js/main.js"]

/-- Unwrapping of the default target file inside create_project: the
descriptor just written is valid, so get_default_target_file cannot raise
there; the error arm is unreachable. -/
def defaultFileOf (e : Except PyErr String) : String :=
  match e with
  | .ok f => f
  | .error _ => "src/App.jsx"

/-- create_project (lines 114-166): current is self.current_project before
the call, currentMeta the state of that project's meta.json (irrelevant
when current is none), fsHas the file-system existence predicate on paths,
now datetime.now().isoformat().  An empty or whitespace-only name is
rejected (lines 116-117) with nothing created; the name is then stripped
and the project path checked for existence (lines 119-122).  The
already-exists return (line 123) evaluates self.get_default_target_file()
on the session's current project, and that call sits outside the try block
starting at line 125 — so a malformed current descriptor makes it raise
json.JSONDecodeError out of create_project, modelled by propagating the
error of get_default_target_file.  Otherwise the project directory, the
screenshots subdirectory, the meta.json descriptor and the scaffold for
the type are created, self.current_project is set to the new path (line
128), and the default target file is computed from the freshly written
(hence valid) descriptor. -/
def create_project (current : Option String) (currentMeta : MetaContent)
    (fsHas : String → Bool) (name type now : String) : CreateOutcome :=
  if name = "" ∨ pyStrip name = "" then
    { result := .ok .invalidName, current_project := current, writes := [],
      descriptor := none }
  else
    let n := pyStrip name
    let path := projectPath n
    if fsHas path then
      match get_default_target_file current.isSome currentMeta with
      | .ok df =>
        { result := .ok (.alreadyExists n df), current_project := current,
          writes := [], descriptor := none }
      | .error e =>
        { result := .error e, current_project := current, writes := [],
          descriptor := none }
    else
      let meta : Meta :=
        { name := n, type := some type, created := some now,
          last_modified := some now, generations := [] }
      let defaultFile := defaultFileOf (get_default_target_file true (.valid meta))
      { result := .ok (.created type n defaultFile)
        current_project := some path
        writes := [path, path ++ "/screenshots", metaJsonPath path] ++
          (scaffoldFiles type).map (fun f => path ++ "/" ++ f)
        descriptor := some meta }

/-- C4 is violated by the code: create_project rejects empty and
whitespace-only names, creating nothing — but a name containing
path-traversal characters, such as "../evil", passes the only validity
check (the emptiness test of lines 116-117) and is created, with the
project directory resolved to workspace/../evil, outside the workspace. -/
theorem create_accepts_traversal_name :
    (create_project none .absent (fun _ => false) "" "React" "t0") =
      { result := .ok .invalidName, current_project := none, writes := [],
        descriptor := none } ∧
    (create_project none .absent (fun _ => false) "   " "React" "t0") =
      { result := .ok .invalidName, current_project := none, writes := [],
        descriptor := none } ∧
    (create_project none .absent (fun _ => false) "../evil" "React" "t0").result =
      .ok (.created "React" "../evil" "src/App.jsx") ∧
    (create_project none .absent (fun _ => false) "../evil" "React" "t0").current_project =
      some "workspace/../evil" ∧
    "workspace/../evil" ∈
      (create_project none .absent (fun _ => false) "../evil" "React" "t0").writes := by
  refine ⟨by decide, by decide, by decide, by decide, by decide⟩

/-- C7 counterexample: create on an existing name does not always fail with
the already-exists error.  With project "demo" present on disk and the
session's current project holding a malformed meta.json (a reachable
state: load_project sets current_project at line 80 before any parse, and
the descriptor may be corrupt), the already-exists return path itself
raises json.JSONDecodeError — line 123 evaluates get_default_target_file()
outside the try — so the caller sees the exception, not the already-exists
result.  Nothing is mutated on that path either. -/
theorem create_existing_raises_on_corrupt_current :
    (fun p => p == projectPath "demo") (projectPath (pyStrip "demo")) = true ∧
    (create_project (some (projectPath "corrupt")) .malformed
        (fun p => p == projectPath "demo") "demo" "React" "t0").result =
      .error .jsonDecodeError ∧
    (∀ df, (create_project (some (projectPath "corrupt")) .malformed
        (fun p => p == projectPath "demo") "demo" "React" "t0").result ≠
      .ok (.alreadyExists "demo" df)) ∧
    (create_project (some (projectPath "corrupt")) .malformed
        (fun p => p == projectPath "demo") "demo" "React" "t0").current_project =
      some (projectPath "corrupt") ∧
    (create_project (some (projectPath "corrupt")) .malformed
        (fun p => p == projectPath "demo") "demo" "React" "t0").writes = [] ∧
    (create_project (some (projectPath "corrupt")) .malformed
        (fun p => p == projectPath "demo") "demo" "React" "t0").descriptor = none := by
  have h2 : (create_project (some (projectPath "corrupt")) .malformed
      (fun p => p == projectPath "demo") "demo" "React" "t0").result =
      .error .jsonDecodeError := by decide
  refine ⟨by decide, h2, ?_, by decide, by decide, by decide⟩
  intro df h
  rw [h2] at h
  exact Except.noConfusion h

/-- C7 (amended): for every name whose project directory already exists,
create_project never mutates anything — no path is written, no descriptor
produced, and the session's current-project pointer is untouched, so the
existing project's descriptor and files are left completely unchanged.  It
fails with the already-exists error whenever no project is current or the
current project's descriptor is not malformed; when a current project with
a malformed descriptor is set, the already-exists path instead raises
json.JSONDecodeError (from the get_default_target_file() call of line 123,
outside the try), still mutating nothing. -/
theorem create_existing_unchanged (current : Option String) (currentMeta : MetaContent)
    (fsHas : String → Bool) (name type now : String) (hname : pyStrip name ≠ "")
    (hex : fsHas (projectPath (pyStrip name)) = true) :
    ((current = none ∨ currentMeta ≠ .malformed) →
      ∃ df, create_project current currentMeta fsHas name type now =
        { result := .ok (.alreadyExists (pyStrip name) df), current_project := current,
          writes := [], descriptor := none }) ∧
    (current.isSome = true → currentMeta = .malformed →
      create_project current currentMeta fsHas name type now =
        { result := .error .jsonDecodeError, current_project := current,
          writes := [], descriptor := none }) := by
  have hne : name ≠ "" := by
    intro h; subst h; exact hname (by decide)
  constructor
  · intro hok
    have hdf : ∃ df, get_default_target_file current.isSome currentMeta = .ok df := by
      cases current with
      | none => exact ⟨"src/App.jsx", rfl⟩
      | some cp =>
        cases currentMeta with
        | absent => exact ⟨"src/App.jsx", rfl⟩
        | malformed =>
          rcases hok with h | h
          · exact absurd h (by simp)
          · exact absurd rfl h
        | valid m => exact ⟨_, rfl⟩
    obtain ⟨df, hdf⟩ := hdf
    refine ⟨df, ?_⟩
    simp [create_project, hne, hname, hex, hdf]
  · intro hsome hmal
    have hdf : get_default_target_file current.isSome currentMeta =
        .error .jsonDecodeError := by
      rw [hsome, hmal]; rfl
    simp [create_project, hne, hname, hex, hdf]

/-- Witness for C7's amended theorem at the raising branch: with "demo"
existing and a malformed current descriptor, create raises and mutates
nothing. -/
theorem create_existing_unchanged_witness :
    pyStrip "demo" ≠ "" ∧
    (fun p => p == projectPath "demo") (projectPath (pyStrip "demo")) = true ∧
    create_project (some (projectPath "corrupt")) .malformed
        (fun p => p == projectPath "demo") "demo" "Vue" "t0" =
      { result := .error .jsonDecodeError,
        current_project := some (projectPath "corrupt"), writes := [],
        descriptor := none } := by
  refine ⟨by decide, by decide, ?_⟩
  exact (create_existing_unchanged (some (projectPath "corrupt")) .malformed
    (fun p => p == projectPath "demo") "demo" "Vue" "t0" (by decide) (by decide)).2 rfl rfl

/-- C10: a successful create sets the newly created project as the active
session project: immediately after create_project returns, the
current-project pointer holds the new project's directory path (line 128),
and the result is the created status for that name. -/
theorem create_sets_current_project (current : Option String) (currentMeta : MetaContent)
    (fsHas : String → Bool) (name type now : String) (hname : pyStrip name ≠ "")
    (hnew : fsHas (projectPath (pyStrip name)) = false) :
    (create_project current currentMeta fsHas name type now).current_project =
      some (projectPath (pyStrip name)) ∧
    ∃ df, (create_project current currentMeta fsHas name type now).result =
      .ok (.created type (pyStrip name) df) := by
  have hne : name ≠ "" := by
    intro h; subst h; exact hname (by decide)
  refine ⟨?_, ?_⟩
  · simp [create_project, hne, hname, hnew]
  · refine ⟨defaultFileOf (get_default_target_file true
      (.valid { name := pyStrip name, type := some type, created := some now,
                last_modified := some now, generations := [] })), ?_⟩
    simp [create_project, hne, hname, hnew]

/-- Witness for C10: creating "demo" in an empty workspace makes
workspace/demo the current project. -/
theorem create_sets_current_project_witness :
    pyStrip "demo" ≠ "" ∧
    (fun _ => false) (projectPath (pyStrip "demo")) = false ∧
    (create_project none .absent (fun _ => false) "demo" "React" "t0").current_project =
      some (projectPath (pyStrip "demo")) := by
  refine ⟨by decide, by decide, ?_⟩
  exact (create_sets_current_project none .absent (fun _ => false) "demo" "React" "t0"
    (by decide) (by decide)).1

/-- C2 is violated by the code: every descriptor write — the append
performed by save_generation_metadata (lines 374-376) and the initial
write inside create_project (lines 143-144) — truncates meta.json in
place and is not a temp-file-plus-rename; after the truncating open and
before the write (trace prefix of length 1) a concurrent reader observes
an empty descriptor, which is neither the old nor the new JSON.  The last
conjunct ties the create-side trace to the modelled create_project: the
descriptor path of the created project is among the paths it writes. -/
theorem metadata_write_not_atomic :
    writesViaTempRename
      (save_generation_metadata_fsTrace (projectPath "demo") "newjson")
      (metaJsonPath (projectPath "demo")) = false ∧
    writesViaTempRename
      (create_project_meta_fsTrace (projectPath "demo") "newjson")
      (metaJsonPath (projectPath "demo")) = false ∧
    FsWrite.openTrunc (metaJsonPath (projectPath "demo")) ∈
      save_generation_metadata_fsTrace (projectPath "demo") "newjson" ∧
    contentAfter (metaJsonPath (projectPath "demo")) "oldjson"
      ((save_generation_metadata_fsTrace (projectPath "demo") "newjson").take 1) = "" ∧
    ("" : String) ≠ "oldjson" ∧ ("" : String) ≠ "newjson" ∧
    contentAfter (metaJsonPath (projectPath "demo")) "oldjson"
      (save_generation_metadata_fsTrace (projectPath "demo") "newjson") = "newjson" ∧
    contentAfter (metaJsonPath (projectPath "demo")) "oldjson"
      ((create_project_meta_fsTrace (projectPath "demo") "newjson").take 1) = "" ∧
    metaJsonPath (projectPath "demo") ∈
      (create_project none .absent (fun _ => false) "demo" "React" "t0").writes := by
  refine ⟨by decide, by decide, by decide, by decide, by decide, by decide, by decide,
    by decide, by decide⟩

/-- The in-memory dev-server supervisor state (lines 32-33 plus ghost
bookkeeping).  dev_server_process models self.dev_server_process: none
before any spawn, some true while the process runs (poll() is None), some
false once it has exited.  preview_port models self.preview_port.  leaked
is ghost instrumentation: whenever a spawn overwrites an old process
handle, the old handle's liveness flag is pushed here, so that the
no-duplicate-process invariant is expressible — a live entry in leaked
would be a second simultaneously running process whose handle was lost. -/
structure SupState where
  dev_server_process : Option Bool
  preview_port : Option Nat
  leaked : List Bool
deriving DecidableEq

/-- Result of start_dev_server (lines 784-846). -/
inductive StartResult
  | noProject
  | alreadyRunning (port : Option Nat)
  | noPort
  | installFailed
  | spawnFailed
  | started (port : Nat)
deriving DecidableEq

/-- Result of stop_dev_server (lines 848-856). -/
inductive StopResult
  | stopped
  | noServer
deriving DecidableEq

/-- Observable process/file-system actions, used to state ordering
properties: terminateProc and waitProc are process.terminate() and
process.wait() (lines 851-852); removeTree is shutil.rmtree of a project
directory (line 465). -/
inductive Event
  | terminateProc
  | waitProc
  | removeTree (name : String)
deriving DecidableEq

/-- The port-probing loop of find_available_port (lines 870-879): for port
in range(first, first + fuel): try to bind, return the port on success;
bindable is the oracle telling whether binding a given port succeeds. -/
def probeFrom (bindable : Nat → Bool) (first : Nat) : Nat → Option Nat
  | 0 => none
  | fuel + 1 => if bindable first then some first else probeFrom bindable (first + 1) fuel

/-- find_available_port (lines 870-879) as called with (3000, 3100) at line
795: probe the half-open range in ascending order, returning the first
bindable port, or none when the range is exhausted. -/
def find_available_port (bindable : Nat → Bool) (first last : Nat) : Option Nat :=
  probeFrom bindable first (last - first)

/-- start_dev_server (lines 784-846).  hasProject is whether
self.current_project is set (line 786); the already-running check is line
789 (handle present and poll() is None), returning the existing port with
no new spawn; the port is allocated at line 795 and its absence reported
at lines 796-797; hasPackageJson / hasNodeModules / installOk model the
dependency-install branch (lines 802-810), which reports failure without
spawning; spawnOk models subprocess.Popen succeeding (its exception is
caught by the outer handler, line 845, leaving the old handle in place).
A successful spawn overwrites the handle with a live process (ghost: the
old handle's flag moves to leaked). -/
def start_dev_server (s : SupState) (hasProject : Bool) (bindable : Nat → Bool)
    (hasPackageJson hasNodeModules installOk spawnOk : Bool) : SupState × StartResult :=
  if !hasProject then (s, .noProject)
  else if s.dev_server_process = some true then (s, .alreadyRunning s.preview_port)
  else
    match find_available_port bindable 3000 3100 with
    | none => ({ s with preview_port := none }, .noPort)
    | some p =>
      let s1 := { s with preview_port := some p }
      if hasPackageJson && !hasNodeModules && !installOk then (s1, .installFailed)
      else if !spawnOk then (s1, .spawnFailed)
      else
        ({ s1 with
            dev_server_process := some true
            leaked := match s.dev_server_process with
              | some b => s.leaked ++ [b]
              | none => s.leaked }, .started p)

/-- stop_dev_server (lines 848-856): when the handle is present and alive,
terminate and wait on the process and clear the port (the dead handle is
kept, as in the source); otherwise report that nothing is running.  The
returned event list records the process actions in order. -/
def stop_dev_server (s : SupState) : SupState × StopResult × List Event :=
  if s.dev_server_process = some true then
    ({ s with dev_server_process := some false, preview_port := none },
     .stopped, [.terminateProc, .waitProc])
  else (s, .noServer, [])

/-- The supervisor's no-duplicate invariant: every process whose handle was
overwritten was already dead, so the only possibly-live process is the one
the current handle points to. -/
def leakFree (s : SupState) : Prop := ∀ b ∈ s.leaked, b = false

instance (s : SupState) : Decidable (leakFree s) := by
  unfold leakFree; infer_instance

/-- Number of simultaneously live dev-server processes held by the
supervisor: the current handle if it is live, plus any live process whose
handle was overwritten. -/
def liveCount (s : SupState) : Nat :=
  (match s.dev_server_process with
   | some true => 1
   | _ => 0) + s.leaked.countP (fun b => b)

theorem leakFree_countP_zero (s : SupState) (h : leakFree s) :
    s.leaked.countP (fun b => b) = 0 := by
  rw [List.countP_eq_zero]
  intro b hb
  simp [h b hb]

/-- C5: if a dev server process is already running for the session, every
further call to start returns the existing port and leaves the state
untouched (no second process is spawned), and the supervisor never holds
two simultaneously live processes: starting and stopping preserve the
leak-freedom invariant, under which the live-process count is at most
one. -/
theorem start_idempotent_when_running (s : SupState) (bindable : Nat → Bool)
    (hp pj nm iok sok : Bool) :
    (s.dev_server_process = some true →
      start_dev_server s true bindable pj nm iok sok = (s, .alreadyRunning s.preview_port)) ∧
    (leakFree s →
      leakFree (start_dev_server s hp bindable pj nm iok sok).1 ∧
      liveCount (start_dev_server s hp bindable pj nm iok sok).1 ≤ 1 ∧
      leakFree (stop_dev_server s).1 ∧
      liveCount (stop_dev_server s).1 ≤ 1) := by
  constructor
  · intro h
    simp [start_dev_server, h]
  · intro hlf
    have hstart : leakFree (start_dev_server s hp bindable pj nm iok sok).1 := by
      unfold start_dev_server
      cases hp with
      | false => simpa using hlf
      | true =>
        simp only [Bool.not_true, Bool.false_eq_true, if_false]
        by_cases hrun : s.dev_server_process = some true
        · simpa [hrun] using hlf
        · simp only [hrun, if_false]
          cases hfind : find_available_port bindable 3000 3100 with
          | none => simpa using hlf
          | some p =>
            simp only
            by_cases hinst : (pj && !nm && !iok) = true
            · simpa [hinst] using hlf
            · simp only [hinst, if_false]
              by_cases hspawn : sok = true
              · cases hproc : s.dev_server_process with
                | none => simp [hspawn, hproc]; intro b hb; exact hlf b hb
                | some b0 =>
                  have hb0 : b0 = false := by
                    cases b0 with
                    | true => exact absurd (by rw [hproc]) hrun
                    | false => rfl
                  subst hb0
                  simp [hspawn, hproc]
                  intro b hb
                  rcases List.mem_append.mp hb with h1 | h1
                  · exact hlf b h1
                  · simpa using h1
              · have : (!sok) = true := by simp_all
                simpa [this] using hlf
    have hstop : leakFree (stop_dev_server s).1 := by
      unfold stop_dev_server
      by_cases hrun : s.dev_server_process = some true
      · simpa [hrun] using hlf
      · simpa [hrun] using hlf
    refine ⟨hstart, ?_, hstop, ?_⟩
    · unfold liveCount
      rw [leakFree_countP_zero _ hstart]
      cases h : (start_dev_server s hp bindable pj nm iok sok).1.dev_server_process with
      | none => simp
      | some b => cases b <;> simp
    · unfold liveCount
      rw [leakFree_countP_zero _ hstop]
      cases h : (stop_dev_server s).1.dev_server_process with
      | none => simp
      | some b => cases b <;> simp

/-- A concrete supervisor with a live dev server on port 3000. -/
def runningSup : SupState :=
  { dev_server_process := some true, preview_port := some 3000, leaked := [] }

/-- A concrete supervisor that has never spawned anything. -/
def freshSup : SupState :=
  { dev_server_process := none, preview_port := none, leaked := [] }

/-- Witness for C5 at a concrete running supervisor on port 3000: start is
a no-op returning the same port, and the live-process count stays at most
one. -/
theorem start_idempotent_when_running_witness :
    runningSup.dev_server_process = some true ∧
    start_dev_server runningSup true (fun _ => false) false false false false =
      (runningSup, .alreadyRunning (some 3000)) ∧
    liveCount (start_dev_server runningSup true (fun _ => false)
      false false false false).1 ≤ 1 := by
  have h := start_idempotent_when_running runningSup
    (fun _ => false) true false false false false
  exact ⟨rfl, h.1 rfl, ((h.2 (by decide)).2).1⟩

theorem probeFrom_some (bindable : Nat → Bool) :
    ∀ fuel first p, probeFrom bindable first fuel = some p →
      first ≤ p ∧ p < first + fuel ∧ bindable p = true ∧
        ∀ q, first ≤ q → q < p → bindable q = false := by
  intro fuel
  induction fuel with
  | zero => intro first p h; simp [probeFrom] at h
  | succ n ih =>
    intro first p h
    unfold probeFrom at h
    by_cases hb : bindable first = true
    · rw [if_pos hb] at h
      cases h
      exact ⟨le_refl _, by omega, hb, fun q hq1 hq2 => absurd hq1 (by omega)⟩
    · rw [if_neg hb] at h
      obtain ⟨h1, h2, h3, h4⟩ := ih (first + 1) p h
      refine ⟨by omega, by omega, h3, ?_⟩
      intro q hq1 hq2
      rcases Nat.eq_or_lt_of_le hq1 with he | hl
      · subst he; simpa using hb
      · exact h4 q hl hq2

theorem probeFrom_none (bindable : Nat → Bool) :
    ∀ fuel first, (∀ q, first ≤ q → q < first + fuel → bindable q = false) →
      probeFrom bindable first fuel = none := by
  intro fuel
  induction fuel with
  | zero => intro first _; rfl
  | succ n ih =>
    intro first h
    unfold probeFrom
    rw [if_neg (by simp [h first (le_refl _) (by omega)])]
    exact ih (first + 1) (fun q hq1 hq2 => h q (by omega) (by omega))

/-- C8: every successful start returns a port in [3000, 3099]: a freshly
allocated port is the first bindable port of the range probed in ascending
order, an already-running start returns the previously stored port, and
when no port in the range is bindable, start fails with the
no-available-port result and spawns nothing (the state keeps its process
handle and ghost list, only the port field is cleared). -/
theorem start_port_in_range (s : SupState) (bindable : Nat → Bool)
    (pj nm iok sok : Bool) :
    (∀ p, find_available_port bindable 3000 3100 = some p →
      3000 ≤ p ∧ p < 3100 ∧ bindable p = true ∧
        ∀ q, 3000 ≤ q → q < p → bindable q = false) ∧
    (∀ p, (start_dev_server s true bindable pj nm iok sok).2 = .started p →
      3000 ≤ p ∧ p < 3100 ∧ bindable p = true ∧
        ∀ q, 3000 ≤ q → q < p → bindable q = false) ∧
    ((∀ q, 3000 ≤ q → q < 3100 → bindable q = false) →
      s.dev_server_process ≠ some true →
      start_dev_server s true bindable pj nm iok sok =
        ({ s with preview_port := none }, .noPort)) := by
  have hfind : ∀ p, find_available_port bindable 3000 3100 = some p →
      3000 ≤ p ∧ p < 3100 ∧ bindable p = true ∧
        ∀ q, 3000 ≤ q → q < p → bindable q = false := by
    intro p h
    unfold find_available_port at h
    have := probeFrom_some bindable (3100 - 3000) 3000 p h
    exact ⟨this.1, by omega, this.2.2.1, this.2.2.2⟩
  refine ⟨hfind, ?_, ?_⟩
  · intro p h
    unfold start_dev_server at h
    by_cases hrun : s.dev_server_process = some true
    · simp [hrun] at h
    · simp only [hrun, if_false, Bool.not_true, Bool.false_eq_true, if_false] at h
      cases hf : find_available_port bindable 3000 3100 with
      | none => rw [hf] at h; simp at h
      | some q =>
        rw [hf] at h
        simp only at h
        by_cases hinst : (pj && !nm && !iok) = true
        · simp [hinst] at h
        · simp only [hinst, if_false] at h
          by_cases hsok : sok = true
          · simp only [hsok] at h
            simp at h
            subst h
            exact hfind _ hf
          · have : sok = false := by simp_all
            simp [this] at h
  · intro hall hrun
    have hnone : find_available_port bindable 3000 3100 = none := by
      unfold find_available_port
      exact probeFrom_none bindable (3100 - 3000) 3000
        (fun q h1 h2 => hall q h1 (by omega))
    unfold start_dev_server
    simp [hrun, hnone]

/-- Witness for C8 with only port 3005 bindable: start on a fresh
supervisor spawns on 3005, which lies in the range, every smaller port of
the range being unbindable; and with no bindable port at all, start
reports no available port without spawning. -/
theorem start_port_in_range_witness :
    (start_dev_server freshSup true (fun p => p == 3005) false false false true).2 =
      .started 3005 ∧
    3000 ≤ 3005 ∧ 3005 < 3100 ∧
    (∀ q, 3000 ≤ q → q < 3005 → (fun p => p == 3005) q = false) ∧
    start_dev_server freshSup true (fun _ => false) false false false true =
      (freshSup, .noPort) := by
  have h2 := (start_port_in_range freshSup (fun p => p == 3005)
    false false false true).2.1 3005 (by decide)
  have h3 := (start_port_in_range freshSup (fun _ => false)
    false false false true).2.2 (fun _ _ _ => rfl) (by simp [freshSup])
  refine ⟨by decide, h2.1, h2.2.1, h2.2.2.2, ?_⟩
  have hfresh : ({ freshSup with preview_port := none } : SupState) = freshSup := by decide
  rw [hfresh] at h3
  exact h3

/-- Result of delete_project (lines 449-471). -/
inductive DeleteResult
  | noSelection
  | notFound
  | deleted (name : String)
deriving DecidableEq

/-- The orchestrator state that delete_project touches: the session's
current-project pointer (a path, as stored at lines 80 and 128), the
supervisor, and the set of project directory names present under
workspace/. -/
structure Workspace where
  current_project : Option String
  sup : SupState
  dirs : List String
deriving DecidableEq

/-- delete_project (lines 449-471): an empty selection and a missing
directory are reported errors; when the project being deleted is the
current one, stop_dev_server runs first and the current-project pointer is
cleared (lines 460-462); then shutil.rmtree removes the directory subtree
(line 465).  The returned event list records the process and file-system
actions in program order. -/
def delete_project (w : Workspace) (name : String) :
    Workspace × DeleteResult × List Event :=
  if name = "" then (w, .noSelection, [])
  else if name ∈ w.dirs then
    let stopped :=
      if w.current_project = some (projectPath name) then
        let r := stop_dev_server w.sup
        (r.1, (none : Option String), r.2.2)
      else (w.sup, w.current_project, ([] : List Event))
    ({ current_project := stopped.2.1, sup := stopped.1, dirs := w.dirs.erase name },
     .deleted name, stopped.2.2 ++ [.removeTree name])
  else (w, .notFound, [])

/-- C6: deleting the project that is the active session project while a
dev server runs first terminates and waits on the process and only then
removes the directory subtree: the emitted event trace is exactly
terminate, wait, remove, in that order; afterwards the handle's process is
dead, the port is released, the directory is gone, and (under the
supervisor's leak-freedom invariant) no live process remains at all. -/
theorem delete_active_stops_server_first (w : Workspace) (name : String)
    (hname : name ≠ "") (hdir : name ∈ w.dirs)
    (hcur : w.current_project = some (projectPath name))
    (hrun : w.sup.dev_server_process = some true) :
    delete_project w name =
      ({ current_project := none,
         sup := { w.sup with dev_server_process := some false, preview_port := none },
         dirs := w.dirs.erase name },
       .deleted name, [.terminateProc, .waitProc, .removeTree name]) ∧
    (leakFree w.sup → liveCount (delete_project w name).1.sup = 0) := by
  have heq : delete_project w name =
      ({ current_project := none,
         sup := { w.sup with dev_server_process := some false, preview_port := none },
         dirs := w.dirs.erase name },
       .deleted name, [.terminateProc, .waitProc, .removeTree name]) := by
    unfold delete_project stop_dev_server
    simp [hname, hdir, hcur, hrun]
  refine ⟨heq, ?_⟩
  intro hlf
  have hz : w.sup.leaked.countP (fun b => b) = 0 := leakFree_countP_zero w.sup hlf
  rw [heq]
  unfold liveCount
  simpa using hz

/-- Witness for C6: deleting the active project "demo" with a server live
on port 3000 emits terminate, wait, remove in order and leaves no live
process. -/
theorem delete_active_stops_server_first_witness :
    delete_project
        { current_project := some (projectPath "demo"), sup := runningSup,
          dirs := ["demo", "other"] } "demo" =
      ({ current_project := none,
         sup := { dev_server_process := some false, preview_port := none, leaked := [] },
         dirs := ["other"] },
       .deleted "demo", [.terminateProc, .waitProc, .removeTree "demo"]) ∧
    liveCount (delete_project
        { current_project := some (projectPath "demo"), sup := runningSup,
          dirs := ["demo", "other"] } "demo").1.sup = 0 := by
  have h := delete_active_stops_server_first
    { current_project := some (projectPath "demo"), sup := runningSup,
      dirs := ["demo", "other"] } "demo" (by decide) (by decide) rfl rfl
  refine ⟨?_, h.2 (by decide)⟩
  rw [h.1]
  decide

end Devstral
